import Mathlib

/-!
Verification development for the `object_recognition_ros` rviz display plugin
(`OrkObjectDisplay` in `src/rviz_plugin/ork_display.cpp`).

The pipeline under study is `OrkObjectDisplay::processMessage`: for each
incoming batch of recognized-object detections it clears the current visual
set, and for each detection it pushes a fresh visual, resolves the object's
mesh URI through a cache (`mesh_resources_`, keyed by the string
`object.type.db + object.type.key`), possibly extracting an embedded mesh
attachment to a temporary file (recorded in `mesh_files_`), loads the mesh
resource, and finally looks up the frame transform and poses the visual.
The destructor removes every temporary file recorded in `mesh_files_`.

External collaborators (database backends, object metadata, the rviz mesh
loader, the transform lookup, and the unique temporary-file-name source) are
modelled as an explicit environment of pure functions.
-/

namespace OrkDisplay

/-- Association-list model of `std::map<std::string, std::string>`:
lookup finds the unique binding of a key, assignment through `operator[]`
overwrites an existing binding or appends a new one. -/
abbrev AssocMap := List (String × String)

/-- Lookup in the map (`m.find(k)` in the C++ source). -/
def mapFind (m : AssocMap) (k : String) : Option String :=
  match m with
  | [] => none
  | (k1, v) :: rest => if k1 = k then some v else mapFind rest k

/-- Assignment `m[k] = v` of `std::map`. -/
def mapInsert (m : AssocMap) (k v : String) : AssocMap :=
  match m with
  | [] => [(k, v)]
  | (k1, v1) :: rest =>
      if k1 = k then (k1, v) :: rest else (k1, v1) :: mapInsert rest k v

/-- One detection of a `RecognizedObjectArray` message: the object type
(`type.db`, `type.key`) and the header fields the transform lookup consumes. -/
structure Detection where
  db : String
  key : String
  frame_id : String
  stamp : Nat
  deriving DecidableEq, Repr

/-- The cache key computed at line 108 of the source:
`std::string object_hash = object.type.db + object.type.key`. -/
def objectHash (db key : String) : String := db ++ key

/-- A frame transform as returned by `FrameManager::getTransform`
(position and orientation, kept abstract as integers). -/
structure Transform where
  position : Int
  orientation : Int
  deriving DecidableEq, Repr

/-- One `OrkObjectVisual`.  The constructor attaches scene nodes and leaves
all content unset; `setMessage` stores the object and its mesh resource,
`setFramePosition` / `setFrameOrientation` store the pose. -/
structure Visual where
  message : Option (Detection × String) := none
  framePosition : Option Int := none
  frameOrientation : Option Int := none
  deriving DecidableEq, Repr

/-- Outcome of querying the database backend and object metadata for one
object type: the plugin class loader can fail (`PluginLoadFailure`), the
`ObjectInfo` construction can fail (`MetadataUnavailable`, after which the
default-constructed info exposes no fields or attachments), or metadata is
available with an optional `mesh_uri` field and an optional `mesh`
attachment. -/
inductive BackendResult where
  | pluginLoadFailure
  | metadataUnavailable
  | info (meshUri : Option String) (hasMeshAttachment : Bool)
  deriving DecidableEq, Repr

/-- The external collaborators of the pipeline: the database backend plus
object metadata (per object type), the rviz mesh loader (`true` when
`loadMeshFromResource` returns a non-null handle), and the frame-transform
lookup. -/
structure Env where
  backend : String → String → BackendResult
  loadMesh : String → Bool
  getTransform : String → Nat → Option Transform

/-- Unique temporary-file name produced by the name source (`std::tmpnam`),
modelled as an injective fresh-name generator indexed by how many names were
handed out so far (the collaborator's contract is race-free uniqueness). -/
def tmpName (n : Nat) : String :=
  String.mk (List.replicate (n + 1) 'f')

/-- The mutable state of one `OrkObjectDisplay`: the mesh URI cache
`mesh_resources_`, the temporary-file registry `mesh_files_`, the visual set
`visuals_`, plus the model of the outside world: how many temporary names
were issued (`tmpCounter`), which temporary files exist on disk
(`tmpFilesOnDisk`), and a ghost counter of database/backend queries
(`backendCalls`). -/
structure DisplayState where
  mesh_resources_ : AssocMap := []
  mesh_files_ : AssocMap := []
  visuals_ : List Visual := []
  tmpCounter : Nat := 0
  tmpFilesOnDisk : List String := []
  backendCalls : Nat := 0
  deriving DecidableEq, Repr

/-- The state of a freshly constructed display. -/
def initState : DisplayState := {}

/-- Result of the mesh-resolution block (source lines 107-165): the value of
`mesh_resource` afterwards, the updated state, and whether the block executed
the early `return` of line 162 (mesh load failure). -/
structure ResolveOut where
  uri : String
  s : DisplayState
  aborted : Bool
  deriving Repr

/-- Source lines 144-154: the embedded `mesh` attachment is written to a new
temporary file `std::tmpnam(0) + ".stl"`, the file is recorded in
`mesh_files_[object_hash]`, and the mesh resource becomes a `file://` URI. -/
def resolveAttachment (hash : String) (s : DisplayState) : String × DisplayState :=
  ("file://" ++ (tmpName s.tmpCounter ++ ".stl"),
   { s with
       tmpCounter := s.tmpCounter + 1,
       tmpFilesOnDisk := s.tmpFilesOnDisk ++ [tmpName s.tmpCounter ++ ".stl"],
       mesh_files_ := mapInsert s.mesh_files_ hash (tmpName s.tmpCounter ++ ".stl") })

/-- Source lines 113-154 on a cache miss: obtain the backend and the object
metadata, then compute `mesh_resource` — the `mesh_uri` field when present,
else a temporary file extracted from the `mesh` attachment, else the empty
string (both failure modes also leave `mesh_resource` empty). -/
def meshFromInfo (hash : String) (res : BackendResult) (s : DisplayState) :
    String × DisplayState :=
  match res with
  | .pluginLoadFailure => ("", s)
  | .metadataUnavailable => ("", s)
  | .info (some u) _ => (u, s)
  | .info none true => resolveAttachment hash s
  | .info none false => ("", s)

/-- Source lines 155-164: when `mesh_resource` is non-empty it is first
inserted into `mesh_resources_` and then handed to
`rviz::loadMeshFromResource`; a null handle triggers the early `return`. -/
def cacheAndCheck (env : Env) (hash : String) (p : String × DisplayState) :
    ResolveOut :=
  if p.1 = "" then ⟨p.1, p.2, false⟩
  else
    ⟨p.1,
     { p.2 with mesh_resources_ := mapInsert p.2.mesh_resources_ hash p.1 },
     !env.loadMesh p.1⟩

/-- Source lines 107-165: the whole mesh-resolution block for one detection.
A hit in `mesh_resources_` returns the cached URI at once; a miss queries the
backend (counted in `backendCalls`) and runs `meshFromInfo` then
`cacheAndCheck`. -/
def resolveMesh (env : Env) (obj : Detection) (s : DisplayState) : ResolveOut :=
  match mapFind s.mesh_resources_ (objectHash obj.db obj.key) with
  | some uri => ⟨uri, s, false⟩
  | none =>
      cacheAndCheck env (objectHash obj.db obj.key)
        (meshFromInfo (objectHash obj.db obj.key) (env.backend obj.db obj.key)
          { s with backendCalls := s.backendCalls + 1 })

/-- Mutation of the most recently pushed visual through its shared pointer. -/
def updateLast (f : Visual → Visual) : List Visual → List Visual
  | [] => []
  | [v] => [f v]
  | v :: v1 :: rest => v :: updateLast f (v1 :: rest)

/-- A freshly constructed `OrkObjectVisual` (lines 101-104): no message, no
mesh, no pose yet. -/
def newVisual : Visual := {}

/-- Lines 100-105: construct a fresh visual and push it into `visuals_`. -/
def pushVisual (s : DisplayState) : DisplayState :=
  { s with visuals_ := s.visuals_ ++ [newVisual] }

/-- Line 168: `visual->setMessage(object, mesh_resource)`. -/
def setMsg (obj : Detection) (uri : String) (v : Visual) : Visual :=
  { v with message := some (obj, uri) }

/-- Lines 179-180: `setFramePosition` and `setFrameOrientation`. -/
def setPose (t : Transform) (v : Visual) : Visual :=
  { v with framePosition := some t.position, frameOrientation := some t.orientation }

/-- Outcome of the loop body for one detection: either continue with the next
detection or return from `processMessage` (the early returns of lines 162 and
176). -/
inductive StepResult where
  | next (s : DisplayState)
  | stop (s : DisplayState)
  deriving Repr

/-- The state carried out of a loop-body outcome. -/
def stepState : StepResult → DisplayState
  | .next s => s
  | .stop s => s

/-- Whether the loop body ended in one of the early returns. -/
def stepStopped : StepResult → Bool
  | .next _ => false
  | .stop _ => true

/-- The loop body of `processMessage` (source lines 98-181) for one
detection: push a fresh visual, resolve the mesh (returning from the whole
message on a mesh-load failure), `setMessage` the visual, look up the
transform (returning from the whole message on failure), and pose the
visual. -/
def processObject (env : Env) (obj : Detection) (s : DisplayState) : StepResult :=
  let r := resolveMesh env obj (pushVisual s)
  if r.aborted then .stop r.s
  else
    let s2 := { r.s with visuals_ := updateLast (setMsg obj r.uri) r.s.visuals_ }
    match env.getTransform obj.frame_id obj.stamp with
    | none => .stop s2
    | some t => .next { s2 with visuals_ := updateLast (setPose t) s2.visuals_ }

/-- The `for` loop over `msg->objects` with its early returns. -/
def runLoop (env : Env) : List Detection → DisplayState → DisplayState
  | [], s => s
  | obj :: rest, s =>
      match processObject env obj s with
      | .next s1 => runLoop env rest s1
      | .stop s1 => s1

/-- `OrkObjectDisplay::processMessage`: clear `visuals_` (line 97), then run
the detection loop. -/
def processMessage (env : Env) (msg : List Detection) (s : DisplayState) :
    DisplayState :=
  runLoop env msg { s with visuals_ := [] }

/-- `OrkObjectDisplay::~OrkObjectDisplay` (source lines 75-79): iterate
`mesh_files_` and call `std::remove` on each recorded path; the result is the
set of temporary files still existing on disk afterwards. -/
def destructorFs (s : DisplayState) : List String :=
  s.mesh_files_.foldl
    (fun fs entry => fs.filter (fun p => p != entry.2)) s.tmpFilesOnDisk

/-- States the display can pass through starting from a given state, under
any sequence of incoming messages and environments. -/
inductive Evolves : DisplayState → DisplayState → Prop where
  | refl (s : DisplayState) : Evolves s s
  | step (env : Env) (msg : List Detection) (s s1 : DisplayState) :
      Evolves s s1 → Evolves s (processMessage env msg s1)

/-- States reachable from a freshly constructed display. -/
def Reachable (s : DisplayState) : Prop := Evolves initState s

/-! Concrete fixtures used to exercise the pipeline on closed inputs. -/

/-- A detection of object type ("db1", "k1") in frame "frameA". -/
def dA : Detection := ⟨"db1", "k1", "frameA", 0⟩

/-- A detection of object type ("db1", "k2") in frame "frameB". -/
def dB : Detection := ⟨"db1", "k2", "frameB", 0⟩

/-- A detection of object type ("db1", "k3") in frame "frameC". -/
def dC : Detection := ⟨"db1", "k3", "frameC", 0⟩

/-- Environment where no object has a mesh, every load succeeds, and the
transform lookup fails exactly for frame "frameB". -/
def envT : Env :=
  ⟨fun _ _ => .info none false, fun _ => true,
   fun f _ => if f = "frameB" then none else some ⟨1, 2⟩⟩

/-- Environment whose backend serves a direct mesh URI that the rviz mesh
loader then fails to load. -/
def envBadLoad : Env :=
  ⟨fun _ _ => .info (some "mesh:bad") false, fun _ => false, fun _ _ => some ⟨1, 2⟩⟩

/-- A second environment with a failing loader, serving URI "mesh:bad4". -/
def envBadLoad4 : Env :=
  ⟨fun _ _ => .info (some "mesh:bad4") false, fun _ => false, fun _ _ => some ⟨1, 2⟩⟩

/-- Environment whose backend plugin always fails to load. -/
def envPluginFail : Env :=
  ⟨fun _ _ => .pluginLoadFailure, fun _ => true, fun _ _ => some ⟨1, 2⟩⟩

/-- Environment serving a direct mesh URI, with loads and transforms fine. -/
def envUri : Env :=
  ⟨fun _ _ => .info (some "mesh:good") false, fun _ => true, fun _ _ => some ⟨1, 2⟩⟩

/-- Environment serving an embedded mesh attachment (no mesh_uri field). -/
def envAttach : Env :=
  ⟨fun _ _ => .info none true, fun _ => true, fun _ _ => some ⟨1, 2⟩⟩

/-- Environment where the transform lookup always fails. -/
def envNoTf : Env :=
  ⟨fun _ _ => .info none false, fun _ => true, fun _ _ => none⟩

/-! Basic lemmas about the map model. -/

theorem mapFind_insert_self (m : AssocMap) (k v : String) :
    mapFind (mapInsert m k v) k = some v := by
  induction m with
  | nil => simp [mapInsert, mapFind]
  | cons e rest ih =>
      obtain ⟨k1, v1⟩ := e
      by_cases h : k1 = k
      · simp [mapInsert, mapFind, h]
      · simp [mapInsert, mapFind, h, ih]

theorem mapFind_insert_ne (m : AssocMap) (k k1 v : String) (h : k1 ≠ k) :
    mapFind (mapInsert m k v) k1 = mapFind m k1 := by
  have hk : ¬(k = k1) := fun hh => h hh.symm
  induction m with
  | nil => simp [mapInsert, mapFind, hk]
  | cons e rest ih =>
      obtain ⟨k2, v2⟩ := e
      by_cases h2 : k2 = k
      · subst h2
        simp [mapInsert, mapFind, hk]
      · simp [mapInsert, mapFind, h2, ih]

theorem mapInsert_of_find_none (m : AssocMap) (k v : String)
    (h : mapFind m k = none) : mapInsert m k v = m ++ [(k, v)] := by
  induction m with
  | nil => simp [mapInsert]
  | cons e rest ih =>
      obtain ⟨k1, v1⟩ := e
      by_cases h1 : k1 = k
      · simp [mapFind, h1] at h
      · simp [mapFind, h1] at h
        simp [mapInsert, h1, ih h]

theorem mapFind_isSome_insert (m : AssocMap) (k k1 v : String)
    (h : (mapFind m k1).isSome = true) :
    (mapFind (mapInsert m k v) k1).isSome = true := by
  by_cases hk : k1 = k
  · subst hk; simp [mapFind_insert_self]
  · rw [mapFind_insert_ne m k k1 v hk]; exact h

/-! Basic lemmas about `updateLast`. -/

theorem updateLast_append_one (f : Visual → Visual) (l : List Visual) (v : Visual) :
    updateLast f (l ++ [v]) = l ++ [f v] := by
  induction l with
  | nil => simp [updateLast]
  | cons a l ih =>
      cases l with
      | nil => simp [updateLast]
      | cons b l2 =>
          have : updateLast f ((a :: b :: l2) ++ [v]) =
              a :: updateLast f ((b :: l2) ++ [v]) := rfl
          rw [this, ih]
          rfl

/-! The mesh-resolution block only writes the fields it is supposed to. -/

theorem meshFromInfo_visuals (hash : String) (res : BackendResult) (s : DisplayState) :
    (meshFromInfo hash res s).2.visuals_ = s.visuals_ := by
  cases res with
  | pluginLoadFailure => rfl
  | metadataUnavailable => rfl
  | info u b =>
      cases u with
      | some x => rfl
      | none => cases b with
        | false => rfl
        | true => rfl

theorem meshFromInfo_resources (hash : String) (res : BackendResult) (s : DisplayState) :
    (meshFromInfo hash res s).2.mesh_resources_ = s.mesh_resources_ := by
  cases res with
  | pluginLoadFailure => rfl
  | metadataUnavailable => rfl
  | info u b =>
      cases u with
      | some x => rfl
      | none => cases b with
        | false => rfl
        | true => rfl

theorem meshFromInfo_backendCalls (hash : String) (res : BackendResult) (s : DisplayState) :
    (meshFromInfo hash res s).2.backendCalls = s.backendCalls := by
  cases res with
  | pluginLoadFailure => rfl
  | metadataUnavailable => rfl
  | info u b =>
      cases u with
      | some x => rfl
      | none => cases b with
        | false => rfl
        | true => rfl

theorem cacheAndCheck_visuals (env : Env) (hash : String) (p : String × DisplayState) :
    (cacheAndCheck env hash p).s.visuals_ = p.2.visuals_ := by
  unfold cacheAndCheck
  by_cases h : p.1 = "" <;> simp [h]

theorem cacheAndCheck_backendCalls (env : Env) (hash : String) (p : String × DisplayState) :
    (cacheAndCheck env hash p).s.backendCalls = p.2.backendCalls := by
  unfold cacheAndCheck
  by_cases h : p.1 = "" <;> simp [h]

theorem resolveMesh_visuals (env : Env) (obj : Detection) (s : DisplayState) :
    (resolveMesh env obj s).s.visuals_ = s.visuals_ := by
  unfold resolveMesh
  cases hfind : mapFind s.mesh_resources_ (objectHash obj.db obj.key) with
  | some uri => rfl
  | none => rw [cacheAndCheck_visuals, meshFromInfo_visuals]

/-! Unfolding equations for the two branches of `resolveMesh`. -/

theorem resolveMesh_hit (env : Env) (obj : Detection) (s : DisplayState) (uri : String)
    (h : mapFind s.mesh_resources_ (objectHash obj.db obj.key) = some uri) :
    resolveMesh env obj s = ⟨uri, s, false⟩ := by
  unfold resolveMesh; rw [h]

theorem resolveMesh_miss (env : Env) (obj : Detection) (s : DisplayState)
    (h : mapFind s.mesh_resources_ (objectHash obj.db obj.key) = none) :
    resolveMesh env obj s =
      cacheAndCheck env (objectHash obj.db obj.key)
        (meshFromInfo (objectHash obj.db obj.key) (env.backend obj.db obj.key)
          { s with backendCalls := s.backendCalls + 1 }) := by
  unfold resolveMesh; rw [h]

/-- A non-empty resolved mesh URI is always inserted into `mesh_resources_`
(source line 157 runs before the load check of line 158). -/
theorem cacheAndCheck_cached (env : Env) (hash : String) (p : String × DisplayState)
    (hne : p.1 ≠ "") :
    mapFind (cacheAndCheck env hash p).s.mesh_resources_ hash = some p.1 := by
  unfold cacheAndCheck
  simp [hne, mapFind_insert_self]

theorem cacheAndCheck_preserves_find (env : Env) (hash : String)
    (p : String × DisplayState) (k u : String) (hk : k ≠ hash)
    (h : mapFind p.2.mesh_resources_ k = some u) :
    mapFind (cacheAndCheck env hash p).s.mesh_resources_ k = some u := by
  unfold cacheAndCheck
  by_cases he : p.1 = ""
  · simp [he, h]
  · simp [he]
    rw [mapFind_insert_ne p.2.mesh_resources_ hash k p.1 hk]
    exact h

theorem cacheAndCheck_uri (env : Env) (hash : String) (p : String × DisplayState) :
    (cacheAndCheck env hash p).uri = p.1 := by
  unfold cacheAndCheck
  by_cases h : p.1 = "" <;> simp [h]

theorem resolveMesh_uri_cached (env : Env) (obj : Detection) (s : DisplayState)
    (hne : (resolveMesh env obj s).uri ≠ "") :
    mapFind (resolveMesh env obj s).s.mesh_resources_ (objectHash obj.db obj.key) =
      some (resolveMesh env obj s).uri := by
  cases hfind : mapFind s.mesh_resources_ (objectHash obj.db obj.key) with
  | some uri => rw [resolveMesh_hit env obj s uri hfind]; exact hfind
  | none =>
      rw [resolveMesh_miss env obj s hfind] at hne ⊢
      rw [cacheAndCheck_uri] at hne ⊢
      exact cacheAndCheck_cached _ _ _ hne

theorem resolveMesh_preserves_find (env : Env) (obj : Detection) (s : DisplayState)
    (k u : String) (h : mapFind s.mesh_resources_ k = some u) :
    mapFind (resolveMesh env obj s).s.mesh_resources_ k = some u := by
  cases hfind : mapFind s.mesh_resources_ (objectHash obj.db obj.key) with
  | some uri => rw [resolveMesh_hit env obj s uri hfind]; exact h
  | none =>
      rw [resolveMesh_miss env obj s hfind]
      have hk : k ≠ objectHash obj.db obj.key := by
        intro hh
        rw [hh, hfind] at h
        cases h
      apply cacheAndCheck_preserves_find env _ _ k u hk
      rw [meshFromInfo_resources]
      exact h

/-- A cache miss performs exactly one backend query. -/
theorem resolveMesh_miss_backendCalls (env : Env) (obj : Detection) (s : DisplayState)
    (h : mapFind s.mesh_resources_ (objectHash obj.db obj.key) = none) :
    (resolveMesh env obj s).s.backendCalls = s.backendCalls + 1 := by
  rw [resolveMesh_miss env obj s h, cacheAndCheck_backendCalls, meshFromInfo_backendCalls]

/-- Backend failures leave `mesh_resource` empty (the `catch` blocks of lines
119-138 only log; the default-constructed object info has no fields and no
attachments). -/
theorem meshFromInfo_failure (hash : String) (res : BackendResult) (s : DisplayState)
    (h : res = .pluginLoadFailure ∨ res = .metadataUnavailable) :
    meshFromInfo hash res s = ("", s) := by
  rcases h with h | h <;> rw [h] <;> rfl

/-- An empty `mesh_resource` skips both caching and the load check. -/
theorem cacheAndCheck_empty (env : Env) (hash : String) (s : DisplayState) :
    cacheAndCheck env hash ("", s) = ⟨"", s, false⟩ := by
  unfold cacheAndCheck; simp

/-! Unfolding equations for the three ways the loop body can end. -/

theorem processObject_stop_abort (env : Env) (obj : Detection) (s : DisplayState)
    (h : (resolveMesh env obj (pushVisual s)).aborted = true) :
    processObject env obj s = .stop (resolveMesh env obj (pushVisual s)).s := by
  simp [processObject, h]

theorem processObject_stop_transform (env : Env) (obj : Detection) (s : DisplayState)
    (hab : (resolveMesh env obj (pushVisual s)).aborted = false)
    (htr : env.getTransform obj.frame_id obj.stamp = none) :
    processObject env obj s =
      .stop { (resolveMesh env obj (pushVisual s)).s with
                visuals_ :=
                  s.visuals_ ++ [setMsg obj (resolveMesh env obj (pushVisual s)).uri newVisual] } := by
  have hv : (resolveMesh env obj (pushVisual s)).s.visuals_ = s.visuals_ ++ [newVisual] :=
    resolveMesh_visuals env obj (pushVisual s)
  simp [processObject, hab, htr, hv, updateLast_append_one]

theorem processObject_next_eq (env : Env) (obj : Detection) (s : DisplayState)
    (t : Transform)
    (hab : (resolveMesh env obj (pushVisual s)).aborted = false)
    (htr : env.getTransform obj.frame_id obj.stamp = some t) :
    processObject env obj s =
      .next { (resolveMesh env obj (pushVisual s)).s with
                visuals_ :=
                  s.visuals_ ++
                    [setPose t (setMsg obj (resolveMesh env obj (pushVisual s)).uri newVisual)] } := by
  have hv : (resolveMesh env obj (pushVisual s)).s.visuals_ = s.visuals_ ++ [newVisual] :=
    resolveMesh_visuals env obj (pushVisual s)
  simp [processObject, hab, htr, hv, updateLast_append_one]

/-- The loop body only writes `visuals_` beyond what the mesh-resolution
block wrote. -/
theorem processObject_fields (env : Env) (obj : Detection) (s : DisplayState) :
    (stepState (processObject env obj s)).mesh_resources_ =
        (resolveMesh env obj (pushVisual s)).s.mesh_resources_ ∧
    (stepState (processObject env obj s)).mesh_files_ =
        (resolveMesh env obj (pushVisual s)).s.mesh_files_ ∧
    (stepState (processObject env obj s)).tmpCounter =
        (resolveMesh env obj (pushVisual s)).s.tmpCounter ∧
    (stepState (processObject env obj s)).tmpFilesOnDisk =
        (resolveMesh env obj (pushVisual s)).s.tmpFilesOnDisk ∧
    (stepState (processObject env obj s)).backendCalls =
        (resolveMesh env obj (pushVisual s)).s.backendCalls := by
  cases hab : (resolveMesh env obj (pushVisual s)).aborted with
  | true => simp [processObject, hab, stepState]
  | false =>
      cases htr : env.getTransform obj.frame_id obj.stamp with
      | none => simp [processObject, hab, htr, stepState]
      | some t => simp [processObject, hab, htr, stepState]

/-- The loop body appends exactly one visual for its detection, and when it
ends in an early return before the pose is set, that visual has no pose. -/
theorem processObject_appends (env : Env) (obj : Detection) (s : DisplayState) :
    ∃ v, (stepState (processObject env obj s)).visuals_ = s.visuals_ ++ [v] ∧
      (stepStopped (processObject env obj s) = true →
        v.framePosition = none ∧ v.frameOrientation = none) := by
  have hv : (resolveMesh env obj (pushVisual s)).s.visuals_ = s.visuals_ ++ [newVisual] :=
    resolveMesh_visuals env obj (pushVisual s)
  cases hab : (resolveMesh env obj (pushVisual s)).aborted with
  | true =>
      refine ⟨newVisual, ?_, ?_⟩
      · rw [processObject_stop_abort env obj s hab]
        exact hv
      · intro _
        exact ⟨rfl, rfl⟩
  | false =>
      cases htr : env.getTransform obj.frame_id obj.stamp with
      | none =>
          refine ⟨setMsg obj (resolveMesh env obj (pushVisual s)).uri newVisual, ?_, ?_⟩
          · rw [processObject_stop_transform env obj s hab htr]
            rfl
          · intro _
            exact ⟨rfl, rfl⟩
      | some t =>
          refine ⟨setPose t (setMsg obj (resolveMesh env obj (pushVisual s)).uri newVisual), ?_, ?_⟩
          · rw [processObject_next_eq env obj s t hab htr]
            rfl
          · intro hcontra
            rw [processObject_next_eq env obj s t hab htr] at hcontra
            simp [stepStopped] at hcontra

/-! Cached bindings survive every later operation: the cache is only ever
extended, and only at keys that were absent. -/

theorem processObject_preserves_find (env : Env) (obj : Detection) (s : DisplayState)
    (k u : String) (h : mapFind s.mesh_resources_ k = some u) :
    mapFind (stepState (processObject env obj s)).mesh_resources_ k = some u := by
  rw [(processObject_fields env obj s).1]
  exact resolveMesh_preserves_find env obj (pushVisual s) k u h

theorem runLoop_preserves_find (env : Env) (msg : List Detection) :
    ∀ s : DisplayState, ∀ k u : String, mapFind s.mesh_resources_ k = some u →
      mapFind (runLoop env msg s).mesh_resources_ k = some u := by
  induction msg with
  | nil => intro s k u h; exact h
  | cons obj rest ih =>
      intro s k u h
      have hstep := processObject_preserves_find env obj s k u h
      unfold runLoop
      cases hpo : processObject env obj s with
      | next s1 =>
          rw [hpo] at hstep
          exact ih s1 k u hstep
      | stop s1 =>
          rw [hpo] at hstep
          exact hstep

theorem processMessage_preserves_find (env : Env) (msg : List Detection)
    (s : DisplayState) (k u : String) (h : mapFind s.mesh_resources_ k = some u) :
    mapFind (processMessage env msg s).mesh_resources_ k = some u :=
  runLoop_preserves_find env msg { s with visuals_ := [] } k u h

theorem evolves_preserves_find (s s1 : DisplayState) (hev : Evolves s s1)
    (k u : String) (h : mapFind s.mesh_resources_ k = some u) :
    mapFind s1.mesh_resources_ k = some u := by
  induction hev with
  | refl s => exact h
  | step env msg s2 s3 hev2 ih => exact processMessage_preserves_find env msg s3 k u (ih h)

/-! Facts about the temporary-name source and `file://` URIs. -/

theorem tmpName_stl_inj (a b : Nat)
    (h : tmpName a ++ ".stl" = tmpName b ++ ".stl") : a = b := by
  have hd := congrArg String.data h
  rw [String.data_append, String.data_append] at hd
  have hl := congrArg List.length hd
  simp [tmpName, List.length_append, List.length_replicate] at hl
  exact hl

theorem file_uri_ne_empty (x : String) : "file://" ++ x ≠ "" := by
  intro h
  have hl := congrArg String.length h
  rw [String.length_append] at hl
  have h7 : ("file://" : String).length = 7 := rfl
  have h0 : ("" : String).length = 0 := rfl
  rw [h7, h0] at hl
  omega

/-! Unfolding equations for the detection loop. -/

theorem runLoop_cons (env : Env) (obj : Detection) (rest : List Detection)
    (s : DisplayState) :
    runLoop env (obj :: rest) s =
      match processObject env obj s with
      | .next s1 => runLoop env rest s1
      | .stop s1 => s1 := rfl

theorem runLoop_cons_next (env : Env) (obj : Detection) (rest : List Detection)
    (s s1 : DisplayState) (h : processObject env obj s = .next s1) :
    runLoop env (obj :: rest) s = runLoop env rest s1 := by
  rw [runLoop_cons, h]

theorem runLoop_cons_stop (env : Env) (obj : Detection) (rest : List Detection)
    (s s1 : DisplayState) (h : processObject env obj s = .stop s1) :
    runLoop env (obj :: rest) s = s1 := by
  rw [runLoop_cons, h]

/-- When the mesh loader succeeds on every URI, the mesh-resolution block
never takes the early `return` of line 162. -/
theorem resolveMesh_not_aborted (env : Env) (obj : Detection) (s : DisplayState)
    (hload : ∀ u, env.loadMesh u = true) :
    (resolveMesh env obj s).aborted = false := by
  cases hfind : mapFind s.mesh_resources_ (objectHash obj.db obj.key) with
  | some uri => rw [resolveMesh_hit env obj s uri hfind]
  | none =>
      rw [resolveMesh_miss env obj s hfind]
      unfold cacheAndCheck
      by_cases he :
          (meshFromInfo (objectHash obj.db obj.key) (env.backend obj.db obj.key)
            { s with backendCalls := s.backendCalls + 1 }).1 = ""
      · simp [he]
      · simp [he, hload]

/-- The early `return` of line 162 happens only after a non-empty
`mesh_resource` was obtained. -/
theorem resolveMesh_aborted_uri_ne (env : Env) (obj : Detection) (s : DisplayState)
    (h : (resolveMesh env obj s).aborted = true) :
    (resolveMesh env obj s).uri ≠ "" := by
  cases hfind : mapFind s.mesh_resources_ (objectHash obj.db obj.key) with
  | some uri =>
      rw [resolveMesh_hit env obj s uri hfind] at h
      cases h
  | none =>
      rw [resolveMesh_miss env obj s hfind] at h ⊢
      rw [cacheAndCheck_uri]
      intro he
      rw [cacheAndCheck, if_pos he] at h
      cases h

/-- The loop adds at most one visual per detection of the message. -/
theorem runLoop_length (env : Env) (msg : List Detection) :
    ∀ s : DisplayState,
      (runLoop env msg s).visuals_.length ≤ s.visuals_.length + msg.length := by
  induction msg with
  | nil => intro s; simp [runLoop]
  | cons obj rest ih =>
      intro s
      obtain ⟨v, hv, _⟩ := processObject_appends env obj s
      unfold runLoop
      cases hpo : processObject env obj s with
      | next s1 =>
          rw [hpo] at hv
          have hlen : s1.visuals_.length = s.visuals_.length + 1 := by
            simp [stepState] at hv
            rw [hv]
            simp
          have := ih s1
          rw [hlen] at this
          simp only [List.length_cons]
          omega
      | stop s1 =>
          rw [hpo] at hv
          simp [stepState] at hv
          rw [hv]
          simp only [List.length_append, List.length_cons, List.length_nil]
          omega

/-! Invariant tying the temporary-file registry to the filesystem model. -/

/-- The registry's recorded paths are exactly the created temporary files in
creation order; every registered key is already cached in `mesh_resources_`
(so the attachment branch never runs twice for a key, and no registry entry
is ever overwritten); and the created files are exactly the names issued so
far. -/
def GoodState (s : DisplayState) : Prop :=
  s.mesh_files_.map Prod.snd = s.tmpFilesOnDisk ∧
  (∀ k, (mapFind s.mesh_files_ k).isSome = true →
    (mapFind s.mesh_resources_ k).isSome = true) ∧
  s.tmpFilesOnDisk = (List.range s.tmpCounter).map (fun n => tmpName n ++ ".stl")

theorem goodState_init : GoodState initState := by
  refine ⟨rfl, ?_, rfl⟩
  intro k h
  simp [initState, mapFind] at h

theorem resolveMesh_good (env : Env) (obj : Detection) (s : DisplayState)
    (hg : GoodState s) : GoodState (resolveMesh env obj s).s := by
  obtain ⟨g1, g2, g3⟩ := hg
  cases hfind : mapFind s.mesh_resources_ (objectHash obj.db obj.key) with
  | some uri =>
      rw [resolveMesh_hit env obj s uri hfind]
      exact ⟨g1, g2, g3⟩
  | none =>
      rw [resolveMesh_miss env obj s hfind]
      cases hb : env.backend obj.db obj.key with
      | pluginLoadFailure =>
          simp only [meshFromInfo]
          rw [cacheAndCheck_empty]
          exact ⟨g1, g2, g3⟩
      | metadataUnavailable =>
          simp only [meshFromInfo]
          rw [cacheAndCheck_empty]
          exact ⟨g1, g2, g3⟩
      | info u b =>
          cases u with
          | some x =>
              simp only [meshFromInfo]
              unfold cacheAndCheck
              by_cases hx : x = ""
              · simp only [hx, if_pos]
                exact ⟨g1, g2, g3⟩
              · rw [if_neg hx]
                refine ⟨g1, ?_, g3⟩
                intro k hk
                exact mapFind_isSome_insert _ _ _ _ (g2 k hk)
          | none =>
              cases b with
              | false =>
                  simp only [meshFromInfo]
                  rw [cacheAndCheck_empty]
                  exact ⟨g1, g2, g3⟩
              | true =>
                  simp only [meshFromInfo, resolveAttachment]
                  unfold cacheAndCheck
                  rw [if_neg (file_uri_ne_empty (tmpName s.tmpCounter ++ ".stl"))]
                  have hmfnone :
                      mapFind s.mesh_files_ (objectHash obj.db obj.key) = none := by
                    cases hmf : mapFind s.mesh_files_ (objectHash obj.db obj.key) with
                    | none => rfl
                    | some w =>
                        have := g2 (objectHash obj.db obj.key) (by rw [hmf]; rfl)
                        rw [hfind] at this
                        cases this
                  refine ⟨?_, ?_, ?_⟩
                  · rw [mapInsert_of_find_none s.mesh_files_ _ _ hmfnone]
                    rw [List.map_append, g1]
                    rfl
                  · intro k hk
                    by_cases hkh : k = objectHash obj.db obj.key
                    · subst hkh
                      rw [mapFind_insert_self]
                      rfl
                    · rw [mapFind_insert_ne s.mesh_files_ _ k _ hkh] at hk
                      exact mapFind_isSome_insert _ _ _ _ (g2 k hk)
                  · rw [g3]
                    rw [List.range_succ, List.map_append]
                    rfl

theorem processObject_good (env : Env) (obj : Detection) (s : DisplayState)
    (hg : GoodState s) : GoodState (stepState (processObject env obj s)) := by
  obtain ⟨f1, f2, f3, f4, f5⟩ := processObject_fields env obj s
  have hgood : GoodState (resolveMesh env obj (pushVisual s)).s :=
    resolveMesh_good env obj (pushVisual s) hg
  unfold GoodState at hgood ⊢
  rw [f1, f2, f3, f4]
  exact hgood

theorem runLoop_good (env : Env) (msg : List Detection) :
    ∀ s : DisplayState, GoodState s → GoodState (runLoop env msg s) := by
  induction msg with
  | nil => intro s hg; exact hg
  | cons obj rest ih =>
      intro s hg
      have hstep := processObject_good env obj s hg
      rw [runLoop_cons]
      cases hpo : processObject env obj s with
      | next s1 =>
          rw [hpo] at hstep
          exact ih s1 hstep
      | stop s1 =>
          rw [hpo] at hstep
          exact hstep

theorem processMessage_good (env : Env) (msg : List Detection) (s : DisplayState)
    (hg : GoodState s) : GoodState (processMessage env msg s) :=
  runLoop_good env msg { s with visuals_ := [] } hg

theorem evolves_good (s s1 : DisplayState) (hev : Evolves s s1)
    (hg : GoodState s) : GoodState s1 := by
  induction hev with
  | refl s => exact hg
  | step env msg s2 s3 hev2 ih => exact processMessage_good env msg s3 (ih hg)

theorem reachable_good (s : DisplayState) (h : Reachable s) : GoodState s :=
  evolves_good initState s h goodState_init

/-! The destructor's sweep over `mesh_files_`. -/

theorem foldl_remove_eq_filter (l : AssocMap) :
    ∀ fs : List String,
      l.foldl (fun fs entry => fs.filter (fun p => p != entry.2)) fs =
        fs.filter (fun p => !((l.map Prod.snd).contains p)) := by
  induction l with
  | nil =>
      intro fs
      simp
  | cons e rest ih =>
      intro fs
      rw [List.foldl_cons, ih, List.filter_filter]
      congr 1
      funext p
      by_cases hp : p = e.2
      · subst hp
        simp
      · have hbne : (p != e.2) = true := by simp [hp]
        simp [hp, hbne]

theorem destructorFs_eq_filter (s : DisplayState) :
    destructorFs s =
      s.tmpFilesOnDisk.filter
        (fun p => !((s.mesh_files_.map Prod.snd).contains p)) :=
  foldl_remove_eq_filter s.mesh_files_ s.tmpFilesOnDisk

theorem filter_not_contains_self (l : List String) :
    l.filter (fun p => !(l.contains p)) = [] := by
  apply List.filter_eq_nil_iff.2
  intro a ha
  simp only [List.elem_eq_true_of_mem ha, Bool.not_true, Bool.false_eq_true,
    not_false_eq_true]

/-! The claims. -/

/-- C1 (counterexample): it is not the case that every two distinct
(db, key) pairs get distinct cache keys — the cache key is the plain
concatenation `db + key` (line 108), so the distinct pairs ("ab","c") and
("a","bc") both hash to "abc" and share one cache entry. -/
theorem C1_counterexample :
    ¬ (∀ d1 k1 d2 k2 : String, (d1, k1) ≠ (d2, k2) →
        objectHash d1 k1 ≠ objectHash d2 k2) := by
  intro h
  exact h "ab" "c" "a" "bc" (by decide) (by decide)

/-- C1 (amended): two ObjectTypeKeys map to distinct cache keys — and thus
never share or overwrite one another's MeshCacheEntry entry — exactly when
their concatenations db ++ key differ; distinct pairs with equal
concatenation collide. -/
theorem C1_theorem (d1 k1 d2 k2 v : String) (m : AssocMap)
    (h : d1 ++ k1 ≠ d2 ++ k2) :
    objectHash d1 k1 ≠ objectHash d2 k2 ∧
    mapFind (mapInsert m (objectHash d1 k1) v) (objectHash d2 k2) =
      mapFind m (objectHash d2 k2) := by
  refine ⟨h, ?_⟩
  exact mapFind_insert_ne m (objectHash d1 k1) (objectHash d2 k2) v
    (fun hh => h hh.symm)

/-- C1 (witness): two keys with different concatenations stay independent in
the cache. -/
theorem C1_witness :
    objectHash "db1" "k1" ≠ objectHash "db2" "k9" ∧
    mapFind (mapInsert [] (objectHash "db1" "k1") "u") (objectHash "db2" "k9") =
      mapFind [] (objectHash "db2" "k9") :=
  C1_theorem "db1" "k1" "db2" "k9" "u" [] (by decide)

/-- C2 (counterexample): on a batch of 3 detections whose 2nd transform
lookup fails, the final VisualInstanceSet does NOT contain exactly the
instance for detection 1: it contains two instances — the posed instance for
detection 1 and a poseless instance for detection 2, which was pushed into
the set before its transform lookup failed. -/
theorem C2_counterexample :
    (processMessage envT [dA, dB, dC] initState).visuals_ =
      [⟨some (dA, ""), some 1, some 2⟩, ⟨some (dB, ""), none, none⟩] := by
  rfl

/-- C2 (amended): for a batch of 3 detections where every mesh load succeeds,
detection 1's transform resolves and detection 2's does not, the final set
holds exactly two instances: detection 1's instance with its pose, and
detection 2's instance without a pose; detection 3 contributes nothing. -/
theorem C2_theorem (env : Env) (d1 d2 d3 : Detection) (s : DisplayState)
    (t1 : Transform)
    (hload : ∀ u, env.loadMesh u = true)
    (h1 : env.getTransform d1.frame_id d1.stamp = some t1)
    (h2 : env.getTransform d2.frame_id d2.stamp = none) :
    ∃ u1 u2 : String,
      (processMessage env [d1, d2, d3] s).visuals_ =
        [⟨some (d1, u1), some t1.position, some t1.orientation⟩,
         ⟨some (d2, u2), none, none⟩] := by
  have hab1 :
      (resolveMesh env d1 (pushVisual { s with visuals_ := [] })).aborted = false :=
    resolveMesh_not_aborted env d1 _ hload
  have e1 := processObject_next_eq env d1 { s with visuals_ := [] } t1 hab1 h1
  unfold processMessage
  rw [runLoop_cons_next env d1 [d2, d3] _ _ e1]
  have hab2 := resolveMesh_not_aborted env d2
    (pushVisual
      { (resolveMesh env d1 (pushVisual { s with visuals_ := [] })).s with
          visuals_ :=
            ({ s with visuals_ := [] } : DisplayState).visuals_ ++
              [setPose t1
                (setMsg d1
                  (resolveMesh env d1 (pushVisual { s with visuals_ := [] })).uri
                  newVisual)] }) hload
  have e2 := processObject_stop_transform env d2 _ hab2 h2
  rw [runLoop_cons_stop env d2 [d3] _ _ e2]
  exact ⟨_, _, rfl⟩

/-- C2 (witness): the amended statement at a concrete batch. -/
theorem C2_witness :
    ∃ u1 u2 : String,
      (processMessage envT [dA, dB, dC] initState).visuals_ =
        [⟨some (dA, u1), some 1, some 2⟩, ⟨some (dB, u2), none, none⟩] :=
  C2_theorem envT dA dB dC initState ⟨1, 2⟩ (fun _ => rfl) rfl rfl

/-- C3 (counterexample): a URI the mesh loader rejects IS left in the cache:
with a backend serving "mesh:bad" and a loader that fails on it, after
processMessage the detection's key maps to "mesh:bad" in `mesh_resources_`
(insertion at line 157 happens before the load check at line 158). -/
theorem C3_counterexample :
    envBadLoad.loadMesh "mesh:bad" = false ∧
    mapFind (processMessage envBadLoad [dA] initState).mesh_resources_
        (objectHash dA.db dA.key) = some "mesh:bad" :=
  ⟨rfl, rfl⟩

/-- C3 (amended): whenever the mesh-resolution block ends in the mesh-load
early `return`, the failing URI has already been inserted into
MeshCacheEntry: the detection's key is present (bound to the broken URI),
not absent. -/
theorem C3_theorem (env : Env) (obj : Detection) (s : DisplayState)
    (h : (resolveMesh env obj s).aborted = true) :
    mapFind (resolveMesh env obj s).s.mesh_resources_ (objectHash obj.db obj.key) =
      some (resolveMesh env obj s).uri :=
  resolveMesh_uri_cached env obj s (resolveMesh_aborted_uri_ne env obj s h)

/-- C3 (witness): the amended statement at a concrete failing load. -/
theorem C3_witness :
    (resolveMesh envBadLoad dA initState).aborted = true ∧
    mapFind (resolveMesh envBadLoad dA initState).s.mesh_resources_
        (objectHash dA.db dA.key) = some (resolveMesh envBadLoad dA initState).uri :=
  ⟨rfl, C3_theorem envBadLoad dA initState rfl⟩

/-- C4 (counterexample): a mesh-load failure on detection 1 does NOT let
detection 2 be processed: with a loader that always fails, a batch of two
detections ends with only detection 1's empty visual in the set and a single
backend call — detection 2 was never reached. -/
theorem C4_counterexample :
    envBadLoad4.loadMesh "mesh:bad4" = false ∧
    (processMessage envBadLoad4 [dA, dB] initState).visuals_ = [newVisual] ∧
    (processMessage envBadLoad4 [dA, dB] initState).backendCalls = 1 :=
  ⟨rfl, rfl, rfl⟩

/-- C4 (amended): a mesh-load failure aborts the whole remainder of the
message, not just the failing detection: when the mesh-resolution block for
the first detection ends in the load-failure `return`, the loop's result is
that state, independent of all remaining detections. -/
theorem C4_theorem (env : Env) (obj : Detection) (rest : List Detection)
    (s : DisplayState)
    (h : (resolveMesh env obj (pushVisual s)).aborted = true) :
    runLoop env (obj :: rest) s = (resolveMesh env obj (pushVisual s)).s :=
  runLoop_cons_stop env obj rest s _ (processObject_stop_abort env obj s h)

/-- C4 (witness): the amended statement at a concrete failing load. -/
theorem C4_witness :
    (resolveMesh envBadLoad4 dA (pushVisual initState)).aborted = true ∧
    runLoop envBadLoad4 [dA, dB] initState =
      (resolveMesh envBadLoad4 dA (pushVisual initState)).s :=
  ⟨rfl, C4_theorem envBadLoad4 dA [dB] initState rfl⟩

/-- C5: backend resolution failures (plugin load failure, metadata
unavailable) are never cached: after such a failure the key is still absent
from MeshCacheEntry, and resolving the same key at the resulting state (in a
later message, under any environment) performs a fresh backend query instead
of a cached fast-fail. -/
theorem C5_theorem (env env2 : Env) (obj : Detection) (s : DisplayState)
    (hmiss : mapFind s.mesh_resources_ (objectHash obj.db obj.key) = none)
    (hfail : env.backend obj.db obj.key = .pluginLoadFailure ∨
             env.backend obj.db obj.key = .metadataUnavailable) :
    mapFind (resolveMesh env obj s).s.mesh_resources_ (objectHash obj.db obj.key) =
        none ∧
    (resolveMesh env2 obj (resolveMesh env obj s).s).s.backendCalls =
      (resolveMesh env obj s).s.backendCalls + 1 := by
  have he : resolveMesh env obj s =
      ⟨"", { s with backendCalls := s.backendCalls + 1 }, false⟩ := by
    rw [resolveMesh_miss env obj s hmiss, meshFromInfo_failure _ _ _ hfail,
      cacheAndCheck_empty]
  rw [he]
  exact ⟨hmiss, resolveMesh_miss_backendCalls env2 obj _ hmiss⟩

/-- C5 (witness): a plugin-load failure at a fresh state leaves the key
uncached and the next resolution queries the backend again. -/
theorem C5_witness :
    mapFind (resolveMesh envPluginFail dA initState).s.mesh_resources_
        (objectHash dA.db dA.key) = none ∧
    (resolveMesh envPluginFail dA (resolveMesh envPluginFail dA initState).s).s.backendCalls =
      (resolveMesh envPluginFail dA initState).s.backendCalls + 1 :=
  C5_theorem envPluginFail envPluginFail dA initState rfl (Or.inl rfl)

/-- C6: once a key resolves successfully (non-empty URI, no load failure),
every later resolution of the same key — at the state right after, or at any
state the display evolves to through further messages — is a pure cache hit:
it returns the cached URI and leaves the state completely unchanged, so it
performs zero backend queries and zero disk writes. -/
theorem C6_theorem (env env2 : Env) (obj : Detection) (s s2 : DisplayState)
    (hsucc : (resolveMesh env obj s).uri ≠ "")
    (hab : (resolveMesh env obj s).aborted = false)
    (hev : Evolves (resolveMesh env obj s).s s2) :
    resolveMesh env2 obj s2 = ⟨(resolveMesh env obj s).uri, s2, false⟩ := by
  have hc := resolveMesh_uri_cached env obj s hsucc
  have hc2 := evolves_preserves_find _ _ hev _ _ hc
  exact resolveMesh_hit env2 obj s2 _ hc2

/-- C6 (witness): a successfully resolved URI is served from cache on the
immediately following resolution of the same key. -/
theorem C6_witness :
    (resolveMesh envUri dA initState).uri ≠ "" ∧
    resolveMesh envUri dA (resolveMesh envUri dA initState).s =
      ⟨(resolveMesh envUri dA initState).uri,
       (resolveMesh envUri dA initState).s, false⟩ :=
  ⟨by decide, C6_theorem envUri envUri dA initState _ (by decide) rfl (Evolves.refl _)⟩

/-- C7: the VisualInstanceSet after a completed processMessage holds only
instances created during that call: the result is entirely independent of
whatever instances were in the set before (line 97 clears it first), and the
set holds at most one instance per detection of the new message. -/
theorem C7_theorem (env : Env) (msg : List Detection) (s : DisplayState)
    (old : List Visual) :
    processMessage env msg { s with visuals_ := old } = processMessage env msg s ∧
    (processMessage env msg s).visuals_.length ≤ msg.length := by
  refine ⟨rfl, ?_⟩
  have h := runLoop_length env msg { s with visuals_ := [] }
  simpa using h

/-- C8: a detection whose metadata has a `mesh` attachment and no `mesh_uri`
creates exactly one new temporary file, records its path in the registry
under the detection's key, caches the corresponding `file://` URI for that
key, and every subsequent resolution of the same key (at any later state) is
a cache hit returning that URI with the state unchanged — in particular no
second temporary file is ever created for the key. -/
theorem C8_theorem (env : Env) (obj : Detection) (s : DisplayState)
    (hmiss : mapFind s.mesh_resources_ (objectHash obj.db obj.key) = none)
    (hatt : env.backend obj.db obj.key = .info none true) :
    (resolveMesh env obj s).s.tmpFilesOnDisk =
        s.tmpFilesOnDisk ++ [tmpName s.tmpCounter ++ ".stl"] ∧
    mapFind (resolveMesh env obj s).s.mesh_files_ (objectHash obj.db obj.key) =
        some (tmpName s.tmpCounter ++ ".stl") ∧
    (resolveMesh env obj s).uri = "file://" ++ (tmpName s.tmpCounter ++ ".stl") ∧
    mapFind (resolveMesh env obj s).s.mesh_resources_ (objectHash obj.db obj.key) =
        some ("file://" ++ (tmpName s.tmpCounter ++ ".stl")) ∧
    (∀ (env2 : Env) (s2 : DisplayState), Evolves (resolveMesh env obj s).s s2 →
      resolveMesh env2 obj s2 =
        ⟨"file://" ++ (tmpName s.tmpCounter ++ ".stl"), s2, false⟩) := by
  have he : resolveMesh env obj s =
      ⟨"file://" ++ (tmpName s.tmpCounter ++ ".stl"),
       { s with
           backendCalls := s.backendCalls + 1,
           tmpCounter := s.tmpCounter + 1,
           tmpFilesOnDisk := s.tmpFilesOnDisk ++ [tmpName s.tmpCounter ++ ".stl"],
           mesh_files_ := mapInsert s.mesh_files_ (objectHash obj.db obj.key)
             (tmpName s.tmpCounter ++ ".stl"),
           mesh_resources_ := mapInsert s.mesh_resources_ (objectHash obj.db obj.key)
             ("file://" ++ (tmpName s.tmpCounter ++ ".stl")) },
       !env.loadMesh ("file://" ++ (tmpName s.tmpCounter ++ ".stl"))⟩ := by
    rw [resolveMesh_miss env obj s hmiss, hatt]
    simp only [meshFromInfo, resolveAttachment]
    unfold cacheAndCheck
    rw [if_neg (file_uri_ne_empty (tmpName s.tmpCounter ++ ".stl"))]
  refine ⟨?_, ?_, ?_, ?_, ?_⟩
  · rw [he]
  · rw [he]
    exact mapFind_insert_self s.mesh_files_ _ _
  · rw [he]
  · rw [he]
    exact mapFind_insert_self s.mesh_resources_ _ _
  · intro env2 s2 hev
    have hc : mapFind (resolveMesh env obj s).s.mesh_resources_
        (objectHash obj.db obj.key) =
        some ("file://" ++ (tmpName s.tmpCounter ++ ".stl")) := by
      rw [he]
      exact mapFind_insert_self s.mesh_resources_ _ _
    have hc2 := evolves_preserves_find _ _ hev _ _ hc
    exact resolveMesh_hit env2 obj s2 _ hc2

/-- C8 (witness): the attachment path at a fresh display. -/
theorem C8_witness :
    mapFind initState.mesh_resources_ (objectHash dA.db dA.key) = none ∧
    ((resolveMesh envAttach dA initState).s.tmpFilesOnDisk =
        initState.tmpFilesOnDisk ++ [tmpName initState.tmpCounter ++ ".stl"] ∧
     mapFind (resolveMesh envAttach dA initState).s.mesh_files_
        (objectHash dA.db dA.key) = some (tmpName initState.tmpCounter ++ ".stl") ∧
     (resolveMesh envAttach dA initState).uri =
        "file://" ++ (tmpName initState.tmpCounter ++ ".stl") ∧
     mapFind (resolveMesh envAttach dA initState).s.mesh_resources_
        (objectHash dA.db dA.key) =
        some ("file://" ++ (tmpName initState.tmpCounter ++ ".stl")) ∧
     (∀ (env2 : Env) (s2 : DisplayState),
        Evolves (resolveMesh envAttach dA initState).s s2 →
        resolveMesh env2 dA s2 =
          ⟨"file://" ++ (tmpName initState.tmpCounter ++ ".stl"), s2, false⟩)) :=
  ⟨rfl, C8_theorem envAttach dA initState rfl rfl⟩

/-- C9: in every reachable display state, the recorded temporary-file paths
are exactly the temporary files existing on disk, each path is recorded
exactly once (so the destructor's sweep over `mesh_files_` invokes the
deletion exactly once per path), and after the destructor's sweep no
recorded temporary file remains on disk. -/
theorem C9_theorem (s : DisplayState) (h : Reachable s) :
    s.mesh_files_.map Prod.snd = s.tmpFilesOnDisk ∧
    (s.mesh_files_.map Prod.snd).Nodup ∧
    destructorFs s = [] := by
  obtain ⟨g1, g2, g3⟩ := reachable_good s h
  refine ⟨g1, ?_, ?_⟩
  · rw [g1, g3]
    exact (List.nodup_range _).map (fun a b hab => tmpName_stl_inj a b hab)
  · rw [destructorFs_eq_filter, g1]
    exact filter_not_contains_self s.tmpFilesOnDisk

/-- C9 (witness): after one message that extracts a mesh attachment, the
destructor removes the one recorded temporary file. -/
theorem C9_witness :
    (processMessage envAttach [dA] initState).mesh_files_.map Prod.snd =
        (processMessage envAttach [dA] initState).tmpFilesOnDisk ∧
    ((processMessage envAttach [dA] initState).mesh_files_.map Prod.snd).Nodup ∧
    destructorFs (processMessage envAttach [dA] initState) = [] :=
  C9_theorem (processMessage envAttach [dA] initState)
    (Evolves.step envAttach [dA] initState initState (Evolves.refl initState))

/-- C10: the loop body appends the new VisualInstance to the set before the
mesh resolution and the transform lookup, so every detection the loop
reaches leaves exactly one instance in the set even when its own mesh load
or transform lookup fails — and in those failing cases that instance has no
pose assignment. -/
theorem C10_theorem (env : Env) (obj : Detection) (s : DisplayState) :
    ∃ v, (stepState (processObject env obj s)).visuals_ = s.visuals_ ++ [v] ∧
      (stepStopped (processObject env obj s) = true →
        v.framePosition = none ∧ v.frameOrientation = none) :=
  processObject_appends env obj s

/-- C10 (witness): at a concrete failing transform lookup, the reached
detection's instance is in the set, poseless. -/
theorem C10_witness :
    ∃ v, (stepState (processObject envNoTf dA initState)).visuals_ =
        initState.visuals_ ++ [v] ∧
      (stepStopped (processObject envNoTf dA initState) = true →
        v.framePosition = none ∧ v.frameOrientation = none) :=
  C10_theorem envNoTf dA initState

end OrkDisplay
